import Mathlib

/-!
Verification of the calendar-status proxy route
(src/web/app/api/calendar/status/route.ts).

The route exports a single handler `POST`:
- it decodes the inbound request body as JSON (a parse failure leaves the
  body as the empty object),
- reads `body?.userId || ''` and `body?.connectionRequestId || ''`,
- builds the upstream URL from `process.env.PY_SERVER_URL || 'http://server:8000'`
  with one trailing slash removed (`replace slash-at-end by empty`) and the
  fixed path `/api/v1/calendar/status` appended,
- POSTs the JSON object with keys `user_id` and `connection_request_id`,
- on a resolved fetch, returns the upstream status with the upstream body
  decoded as JSON (decode failure yields the empty object) re-serialized,
- on a thrown or rejected fetch, returns status 502 with the envelope
  holding `ok: false`, `error: 'Upstream error'` and
  `detail: e?.message || String(e)`.

The shallow embedding below models JavaScript JSON values as the
inductive `Json`, JavaScript truthiness as `truthy`, the `||` operator
as `jsOr` and `envOr`, string conversion `String(e)` as `jsToString`,
and the handler as the total function `POST` over explicit inputs: the
result of `req.json()` (`Option Json`, `none` meaning the parse threw),
the environment variable (`Option String`, `none` meaning unset), and
the behavior of `fetch` as a function from the target URL and the
outbound body to a `FetchResult`.
-/

namespace CalendarStatus

/-- A JavaScript JSON value: null, boolean, number, string, array or
object (an ordered list of key-value pairs). -/
inductive Json where
  | null : Json
  | bool (b : Bool) : Json
  | num (n : Int) : Json
  | str (s : String) : Json
  | arr (xs : List Json) : Json
  | obj (fields : List (String × Json)) : Json
  deriving Repr

/-- JavaScript truthiness of a value: null, false, 0 and the empty
string are falsy; every array and object is truthy. -/
def truthy : Json → Bool
  | .null => false
  | .bool b => b
  | .num n => n != 0
  | .str s => s != ""
  | .arr _ => true
  | .obj _ => true

/-- Optional member access `v?.k`: a lookup on an object, `undefined`
(modelled as `none`) on every other value. -/
def getMember (v : Json) (k : String) : Option Json :=
  match v with
  | .obj fields => fields.lookup k
  | _ => none

/-- The JavaScript expression `x || d` applied to a possibly-undefined
value: the value when present and truthy, otherwise the default. -/
def jsOr (o : Option Json) (d : Json) : Json :=
  match o with
  | none => d
  | some v => if truthy v then v else d

mutual
/-- JavaScript `String(v)` conversion: `"null"` for null, `"true"` or
`"false"` for booleans, the decimal form for numbers, the string itself,
comma-joined elements for arrays (null elements become empty), and
`"[object Object]"` for plain objects. -/
def jsToString : Json → String
  | .null => "null"
  | .bool b => if b then "true" else "false"
  | .num n => toString n
  | .str s => s
  | .arr xs => jsToStringList xs
  | .obj _ => "[object Object]"

/-- Array stringification: elements converted by `jsToString`, except
null which becomes the empty string, joined with commas. -/
def jsToStringList : List Json → String
  | [] => ""
  | [x] => jsToStringElem x
  | x :: xs => jsToStringElem x ++ "," ++ jsToStringList xs

/-- One array element inside `Array.prototype.toString`: null becomes
the empty string, every other value is converted by `jsToString`. -/
def jsToStringElem : Json → String
  | .null => ""
  | .bool b => if b then "true" else "false"
  | .num n => toString n
  | .str s => s
  | .arr xs => jsToStringList xs
  | .obj _ => "[object Object]"
end

/-- The JavaScript expression `e || d` on an environment variable
(`Option String`, `none` meaning unset): the variable when set and
non-empty, otherwise the default. -/
def envOr (e : Option String) (d : String) : String :=
  match e with
  | none => d
  | some s => if s = "" then d else s

/-- The regex replace of one slash at the end by the empty string
(`serverBase.replace` of the anchored slash pattern): removes the final
character exactly when it is a slash. -/
def stripTrailingSlash (s : String) : String :=
  match s.data.getLast? with
  | some '/' => String.mk s.data.dropLast
  | _ => s

/-- The default upstream base used when `PY_SERVER_URL` is unset or empty. -/
def defaultBase : String := "http://server:8000"

/-- The fixed path appended to the base. -/
def statusPath : String := "/api/v1/calendar/status"

/-- The upstream URL built by the handler from the environment variable. -/
def buildUrl (env : Option String) : String :=
  stripTrailingSlash (envOr env defaultBase) ++ statusPath

/-- The body of the outbound POST, built from the result of
`req.json()` (`none` meaning the parse threw and the body stayed the
empty object): the two fields re-encoded under the keys `user_id` and
`connection_request_id`, each defaulted to the empty string by `||`. -/
def outboundBody (reqBody : Option Json) : Json :=
  let body := reqBody.getD (Json.obj [])
  Json.obj
    [("user_id", jsOr (getMember body "userId") (Json.str "")),
     ("connection_request_id", jsOr (getMember body "connectionRequestId") (Json.str ""))]

/-- The outcome of the awaited `fetch`: either a resolved response,
carrying its status and the result of `resp.json()` (`none` meaning the
body was not valid JSON, in which case the catch handler supplies the
empty object), or a thrown or rejected value. -/
inductive FetchResult where
  | resolved (status : Nat) (body : Option Json) : FetchResult
  | rejected (e : Json) : FetchResult
  deriving Repr

/-- The content type set on both exit paths of the handler. -/
def jsonContentType : String := "application/json; charset=utf-8"

/-- The HTTP response produced by the handler: status, JSON body (the
value passed through `JSON.stringify`) and the content-type header. -/
structure Response where
  status : Nat
  body : Json
  contentType : String
  deriving Repr

/-- The `detail` field of the 502 envelope: `e?.message || String(e)`. -/
def detailOf (e : Json) : Json :=
  jsOr (getMember e "message") (Json.str (jsToString e))

/-- The 502 error envelope built in the catch branch. -/
def errorEnvelope (e : Json) : Json :=
  Json.obj
    [("ok", Json.bool false),
     ("error", Json.str "Upstream error"),
     ("detail", detailOf e)]

/-- The handler `POST` of route.ts, over explicit inputs: the result of
`req.json()`, the environment variable `PY_SERVER_URL`, and the fetch
behavior as a function from target URL and outbound body to outcome. -/
def POST (reqBody : Option Json) (env : Option String)
    (fetchFn : String → Json → FetchResult) : Response :=
  match fetchFn (buildUrl env) (outboundBody reqBody) with
  | .resolved status mdata =>
      { status := status
        body := mdata.getD (Json.obj [])
        contentType := jsonContentType }
  | .rejected e =>
      { status := 502
        body := errorEnvelope e
        contentType := jsonContentType }

/-! Helper lemmas shared by the claim theorems. -/

/-- Defaulting a string value with the empty string through `||` is the
identity: the truthy case keeps the string, the falsy case is exactly
the empty string. -/
theorem jsOr_str_empty_default (s : String) :
    jsOr (some (Json.str s)) (Json.str "") = Json.str s := by
  by_cases h : s = "" <;> simp [jsOr, truthy, h]

/-! Claim theorems. -/

/-- Claim C1: whenever the fetch issued at the built URL with the built
outbound body resolves with status `status` and a body that JSON-decodes
to `data`, the handler returns exactly that status with `data`
re-serialized as the response body, for every status, so in particular a
404 upstream response is relayed unchanged and not rewritten into an
error envelope. -/
theorem relay_upstream_status_and_body (reqBody : Option Json) (env : Option String)
    (fetchFn : String → Json → FetchResult) (status : Nat) (data : Json)
    (h : fetchFn (buildUrl env) (outboundBody reqBody) = .resolved status (some data)) :
    POST reqBody env fetchFn
      = { status := status, body := data, contentType := jsonContentType } := by
  simp [POST, h]

/-- Witness for C1: an upstream 404 response whose body is the object
mapping the key error to the string not found is relayed with status 404
and that very body. -/
theorem relay_upstream_status_and_body_witness :
    POST (some (Json.obj [])) none
        (fun _ _ => .resolved 404 (some (Json.obj [("error", Json.str "not found")])))
      = { status := 404
          body := Json.obj [("error", Json.str "not found")]
          contentType := jsonContentType } :=
  relay_upstream_status_and_body (some (Json.obj [])) none
    (fun _ _ => .resolved 404 (some (Json.obj [("error", Json.str "not found")])))
    404 (Json.obj [("error", Json.str "not found")]) rfl

/-- Counterexample to C2 as stated: the caught value owning a message
property that holds the empty string has a message present, so the
claimed detail would be that message, the empty string; the code tests
the message with `||` (truthiness), rejects the empty string, and falls
back to the String form of the caught object, which is the string
`[object Object]`, a different value. -/
theorem detail_truthiness_counterexample :
    POST (some (Json.obj [])) none
        (fun _ _ => .rejected (Json.obj [("message", Json.str "")]))
      = { status := 502
          body := Json.obj
            [("ok", Json.bool false), ("error", Json.str "Upstream error"),
             ("detail", Json.str "[object Object]")]
          contentType := jsonContentType }
    ∧ Json.str "[object Object]" ≠ Json.str "" :=
  ⟨rfl, by simp⟩

/-- Claim C2 amended: when the upstream call rejects with caught value
`e`, the handler returns exactly status 502 with body carrying ok false,
the fixed label Upstream error, and detail equal to the message property
of `e` when that property is present and truthy, and the String form of
`e` otherwise. -/
theorem rejected_returns_502_envelope (reqBody : Option Json) (env : Option String)
    (fetchFn : String → Json → FetchResult) (e : Json)
    (h : fetchFn (buildUrl env) (outboundBody reqBody) = .rejected e) :
    POST reqBody env fetchFn
      = { status := 502
          body := Json.obj
            [("ok", Json.bool false), ("error", Json.str "Upstream error"),
             ("detail", jsOr (getMember e "message") (Json.str (jsToString e)))]
          contentType := jsonContentType } := by
  simp [POST, h, errorEnvelope, detailOf]

/-- Witness for the amended C2: a rejection carrying a message boom
produces the 502 envelope with detail boom. -/
theorem rejected_returns_502_envelope_witness :
    POST none none (fun _ _ => .rejected (Json.obj [("message", Json.str "boom")]))
      = { status := 502
          body := Json.obj
            [("ok", Json.bool false), ("error", Json.str "Upstream error"),
             ("detail", Json.str "boom")]
          contentType := jsonContentType } :=
  rejected_returns_502_envelope none none
    (fun _ _ => .rejected (Json.obj [("message", Json.str "boom")]))
    (Json.obj [("message", Json.str "boom")]) rfl

/-- Claim C3: when the parsed inbound body carries string values under
the keys userId and connectionRequestId, the outbound body is exactly
the object with those two strings under the renamed keys user_id and
connection_request_id and no other fields. -/
theorem outbound_renames_string_fields (b : Json) (u c : String)
    (hu : getMember b "userId" = some (Json.str u))
    (hc : getMember b "connectionRequestId" = some (Json.str c)) :
    outboundBody (some b)
      = Json.obj [("user_id", Json.str u), ("connection_request_id", Json.str c)] := by
  simp [outboundBody, hu, hc, jsOr_str_empty_default]

/-- Witness for C3: the inbound fields alice and req-1 are forwarded
under the snake case keys. -/
theorem outbound_renames_string_fields_witness :
    outboundBody (some (Json.obj
        [("userId", Json.str "alice"), ("connectionRequestId", Json.str "req-1")]))
      = Json.obj [("user_id", Json.str "alice"), ("connection_request_id", Json.str "req-1")] :=
  outbound_renames_string_fields
    (Json.obj [("userId", Json.str "alice"), ("connectionRequestId", Json.str "req-1")])
    "alice" "req-1" rfl rfl

/-- Claim C4: when the inbound body is missing, empty or not parseable
as JSON, the parse failure is recovered as the empty object (the handler
does not fail: `POST` is a total function of the parse outcome), both
fields default to the empty string, and the outbound body is the object
with empty strings under user_id and connection_request_id. -/
theorem empty_or_unparsable_body_defaults :
    outboundBody none
      = Json.obj [("user_id", Json.str ""), ("connection_request_id", Json.str "")] := rfl

/-- Claim C5: whenever the fetch resolves but the upstream body is not
valid JSON (the decode fails), the handler returns the upstream status
with the empty object as body. -/
theorem nonjson_upstream_body_yields_empty_object (reqBody : Option Json)
    (env : Option String) (fetchFn : String → Json → FetchResult) (status : Nat)
    (h : fetchFn (buildUrl env) (outboundBody reqBody) = .resolved status none) :
    POST reqBody env fetchFn
      = { status := status, body := Json.obj [], contentType := jsonContentType } := by
  simp [POST, h]

/-- Witness for C5: an upstream 200 response with a non-JSON body yields
status 200 and the empty object. -/
theorem nonjson_upstream_body_yields_empty_object_witness :
    POST none none (fun _ _ => .resolved 200 none)
      = { status := 200, body := Json.obj [], contentType := jsonContentType } :=
  nonjson_upstream_body_yields_empty_object none none (fun _ _ => .resolved 200 none) 200 rfl

/-- Claim C6: with the environment variable unset, the outbound target
is exactly the default base followed by the fixed path. -/
theorem default_base_url :
    buildUrl none = "http://server:8000/api/v1/calendar/status" := rfl

/-- Counterexample to C7 as stated: the replace removes exactly one
trailing slash, so a base ending in two slashes keeps a double slash at
the join point; the built URL differs from the single-slash URL the
claim promises for every base. -/
theorem double_slash_base_counterexample :
    buildUrl (some "http://x//") = "http://x//api/v1/calendar/status"
    ∧ buildUrl (some "http://x//") ≠ "http://x/api/v1/calendar/status" :=
  ⟨rfl, by decide⟩

/-- Claim C7 amended: exactly one trailing slash is stripped from the
base before the fixed path is appended, so every base of the form t
followed by one slash yields the target t followed by the fixed path;
in particular the base http://x/ yields
http://x/api/v1/calendar/status with no double slash, while a base
ending in two or more slashes keeps a double slash at the join point. -/
theorem strip_one_trailing_slash (t : String) :
    buildUrl (some (t ++ "/")) = t ++ "/api/v1/calendar/status" := by
  have hne : t ++ "/" ≠ "" := by
    intro h
    have hd : (t ++ "/").data = ([] : List Char) := by rw [h]
    rw [String.data_append] at hd
    simp at hd
  have hdata : (t ++ "/").data = t.data ++ ['/'] := by
    rw [String.data_append]
  show stripTrailingSlash (envOr (some (t ++ "/")) defaultBase) ++ statusPath
      = t ++ "/api/v1/calendar/status"
  rw [show envOr (some (t ++ "/")) defaultBase = t ++ "/" from if_neg hne]
  unfold stripTrailingSlash
  rw [hdata, List.getLast?_concat, List.dropLast_concat]
  rfl

/-- Counterexample to C8 as stated: the thrown value can be the empty
string, which has no message property and whose String form is the
empty string, so the detail field of the 502 envelope is the empty
string, not a non-empty one. -/
theorem empty_detail_counterexample :
    POST (some (Json.obj [])) none (fun _ _ => .rejected (Json.str ""))
      = { status := 502
          body := Json.obj
            [("ok", Json.bool false), ("error", Json.str "Upstream error"),
             ("detail", Json.str "")]
          contentType := jsonContentType } := rfl

/-- Claim C8 amended: the detail field of the 502 envelope is a
non-empty string provided the caught value either carries a message
property holding a non-empty (hence truthy) string, or carries no
truthy message and has a non-empty String form; a thrown value whose
String form is empty, such as the empty string itself, yields an empty
detail. -/
theorem detail_nonempty (e : Json)
    (h : (∃ s, getMember e "message" = some (Json.str s) ∧ s ≠ "")
       ∨ ((∀ m, getMember e "message" = some m → truthy m = false)
           ∧ jsToString e ≠ "")) :
    ∃ s, detailOf e = Json.str s ∧ s ≠ "" := by
  rcases h with ⟨s, hm, hs⟩ | ⟨hfal, hne⟩
  · exact ⟨s, by simp [detailOf, jsOr, hm, truthy, hs], hs⟩
  · refine ⟨jsToString e, ?_, hne⟩
    unfold detailOf jsOr
    cases hm : getMember e "message" with
    | none => rfl
    | some m => simp [hfal m hm]

/-- Witness for the amended C8: a caught plain object with no message
property has String form [object Object], so the detail is a non-empty
string. -/
theorem detail_nonempty_witness :
    ∃ s, detailOf (Json.obj []) = Json.str s ∧ s ≠ "" :=
  detail_nonempty (Json.obj [])
    (Or.inr ⟨by intro m hm; simp [getMember] at hm, by decide⟩)

/-- Claim C9: the environment variable set to the empty string is
treated exactly like the unset variable, because the base is chosen
with the truthiness operator: the built URL and the whole handler
behavior coincide with the default-base ones. -/
theorem empty_env_same_as_unset (reqBody : Option Json)
    (fetchFn : String → Json → FetchResult) :
    buildUrl (some "") = buildUrl none
    ∧ POST reqBody (some "") fetchFn = POST reqBody none fetchFn :=
  ⟨rfl, rfl⟩

/-- Claim C10: `POST` is a total function of the parse outcome, the
environment and the fetch outcome (every fallible step of the route is
guarded by try or catch, so no exception escapes), and on both exit
paths the response carries the content type
application/json; charset=utf-8. -/
theorem always_json_content_type (reqBody : Option Json) (env : Option String)
    (fetchFn : String → Json → FetchResult) :
    (POST reqBody env fetchFn).contentType = "application/json; charset=utf-8" := by
  unfold POST
  cases fetchFn (buildUrl env) (outboundBody reqBody) <;> rfl

end CalendarStatus
